import Mathlib

/-!
# Verification of the devhelper-cli local-environment orchestrator

This file gives a shallow embedding, in Lean 4, of the component lifecycle
orchestrator of the `devhelper-cli` repository: the configuration drift
detector (`hasConfigChanged`), the requirement-resolution helpers
(`getDaprRequirement` and friends), the `localenv start` orchestration loop
(`startCmd.Run`), and the benign-error tolerance predicate of the
`localenv stop` Dapr teardown.

External effects (processes spawned, HTTP probes, port inspection) are
modelled by an `Env` record of oracles, one field per probe site of the
source; the orchestration is then a pure function from the configuration,
flags, cached snapshot and environment to a run result carrying the
terminal state of every component and the trace of mutating actions
(component starts, component stops/kills/removals, snapshot saves).
-/

namespace DevHelper

/-- Configuration cache used to detect changes between runs
(struct `ConfigCache` of `localenv_start.go`). -/
structure ConfigCache where
  daprDashboardPort  : Int
  temporalUIPort     : Int
  temporalGRPCPort   : Int
  temporalNamespace  : String
  openSearchPort     : Int
  openSearchDashPort : Int
deriving DecidableEq, Repr

/-- The per-component enabled flags of `LocalEnvConfig.Components`
as used by `startCmd` (booleans `dapr`, `temporal`, `daprDashboard`,
`openSearch`). -/
structure ComponentsConfig where
  dapr          : Bool
  temporal      : Bool
  daprDashboard : Bool
  openSearch    : Bool
deriving DecidableEq, Repr

/-- `LocalEnvConfig.Temporal`: namespace and ports. -/
structure TemporalConfig where
  nameSpace : String
  uiPort    : Int
  grpcPort  : Int
deriving DecidableEq, Repr

/-- `LocalEnvConfig.Dapr`: dashboard and zipkin ports. -/
structure DaprConfig where
  dashboardPort : Int
  zipkinPort    : Int
deriving DecidableEq, Repr

/-- `LocalEnvConfig.OpenSearch`: service and dashboard ports. -/
structure OpenSearchConfig where
  port          : Int
  dashboardPort : Int
deriving DecidableEq, Repr

/-- The fields of `LocalEnvConfig` read by `startCmd` (the `Paths` and
`Tools` sections are never consulted by the orchestration logic). -/
structure LocalEnvConfig where
  components : ComponentsConfig
  temporal   : TemporalConfig
  dapr       : DaprConfig
  openSearch : OpenSearchConfig
deriving DecidableEq, Repr

/-- `hasConfigChanged` of `localenv_start.go`: returns whether the current
config differs from the previous snapshot, the freshly built snapshot, and
the list of human-readable change messages.  Each of the six `if` blocks of
the source is mirrored by one state-update step. -/
def hasConfigChanged (config : LocalEnvConfig) (currentCache : ConfigCache) :
    Bool × ConfigCache × List String :=
  let newCache : ConfigCache :=
    { daprDashboardPort  := config.dapr.dashboardPort
      temporalUIPort     := config.temporal.uiPort
      temporalGRPCPort   := config.temporal.grpcPort
      temporalNamespace  := config.temporal.nameSpace
      openSearchPort     := config.openSearch.port
      openSearchDashPort := config.openSearch.dashboardPort }
  let s0 : Bool × List String := (false, [])
  let s1 :=
    if currentCache.daprDashboardPort != 0 &&
        currentCache.daprDashboardPort != config.dapr.dashboardPort then
      (true, s0.2 ++ ["Dapr Dashboard port changed: " ++
        toString currentCache.daprDashboardPort ++ " → " ++
        toString config.dapr.dashboardPort])
    else s0
  let s2 :=
    if currentCache.temporalUIPort != 0 &&
        currentCache.temporalUIPort != config.temporal.uiPort then
      (true, s1.2 ++ ["Temporal UI port changed: " ++
        toString currentCache.temporalUIPort ++ " → " ++
        toString config.temporal.uiPort])
    else s1
  let s3 :=
    if currentCache.temporalGRPCPort != 0 &&
        currentCache.temporalGRPCPort != config.temporal.grpcPort then
      (true, s2.2 ++ ["Temporal GRPC port changed: " ++
        toString currentCache.temporalGRPCPort ++ " → " ++
        toString config.temporal.grpcPort])
    else s2
  let s4 :=
    if currentCache.temporalNamespace != "" &&
        currentCache.temporalNamespace != config.temporal.nameSpace then
      (true, s3.2 ++ ["Temporal namespace changed: " ++
        currentCache.temporalNamespace ++ " → " ++ config.temporal.nameSpace])
    else s3
  let s5 :=
    if currentCache.openSearchPort != 0 &&
        currentCache.openSearchPort != config.openSearch.port then
      (true, s4.2 ++ ["OpenSearch port changed: " ++
        toString currentCache.openSearchPort ++ " → " ++
        toString config.openSearch.port])
    else s4
  let s6 :=
    if currentCache.openSearchDashPort != 0 &&
        currentCache.openSearchDashPort != config.openSearch.dashboardPort then
      (true, s5.2 ++ ["OpenSearch Dashboard port changed: " ++
        toString currentCache.openSearchDashPort ++ " → " ++
        toString config.openSearch.dashboardPort])
    else s5
  (s6.1, newCache, s6.2)

/-- Requirement helper of `localenv_helpers.go`: when a configuration was
loaded its enabled flag is authoritative, otherwise the skip flag is. -/
def getDaprRequirement (configLoaded configValue skipFlag : Bool) : Bool :=
  if configLoaded then configValue else !skipFlag

/-- Requirement helper of `localenv_helpers.go` for Temporal. -/
def getTemporalRequirement (configLoaded configValue skipFlag : Bool) : Bool :=
  if configLoaded then configValue else !skipFlag

/-- Requirement helper of `localenv_helpers.go` for the Dapr dashboard. -/
def getDaprDashboardRequirement (configLoaded configValue skipFlag : Bool) : Bool :=
  if configLoaded then configValue else !skipFlag

/-- Modelled from the spec: `getOpenSearchRequirement` is called by
`startCmd` but its definition is not among the provided sources; the spec's
`resolveRequired` rule says the loaded configuration's enabled flag is
authoritative when present and the negation of the skip flag otherwise,
identically to the three helpers whose sources are available. -/
def getOpenSearchRequirement (configLoaded configValue skipFlag : Bool) : Bool :=
  if configLoaded then configValue else !skipFlag

/-- Decides whether the first list occurs at the head of the second
(character-level prefix test used to model Go's `strings.Contains`). -/
def leadMatch : List Char → List Char → Bool
  | [], _ => true
  | _ :: _, [] => false
  | a :: as, b :: bs => a == b && leadMatch as bs

/-- Scans the haystack for an occurrence of the needle at any position. -/
def subSearch (needle : List Char) : List Char → Bool
  | [] => leadMatch needle []
  | c :: t => leadMatch needle (c :: t) || subSearch needle t

/-- Go's `strings.Contains s sub`: substring occurrence test. -/
def strContains (s sub : String) : Bool := subSearch sub.data s.data

/-- Observations of the `dapr uninstall` invocation in `stopCmd`
(`localenv_stop.go`): whether the command returned an error, its combined
output, and whether `podman` is available on the system. -/
structure DaprUninstallObs where
  exitErr         : Bool
  output          : String
  podmanAvailable : Bool

/-- The benign-error tolerance predicate of `stopCmd` (lines 438-442 of
`localenv_stop.go`): the uninstall is a success if the command exited
cleanly, or its output shows the Docker-runtime mismatch warning while
podman is available. -/
def daprUninstallSuccess (o : DaprUninstallObs) : Bool :=
  !o.exitErr ||
    (strContains o.output "Error removing Dapr" &&
      strContains o.output "docker" &&
      o.podmanAvailable)

/-- How much `stoppedCount` is incremented by the Dapr branch of `stopCmd`:
the component is counted as stopped exactly in the success branch. -/
def daprStopIncrement (o : DaprUninstallObs) : Nat :=
  if !(daprUninstallSuccess o) then 0 else 1

/-- The names of the seven managed components, in the order of the
`components` slice literal of `startCmd`. -/
inductive CompName
  | podman
  | kind
  | dapr
  | daprDashboard
  | temporal
  | openSearch
  | openSearchDashboard
deriving DecidableEq, Repr

/-- The fields of the `Component` struct consulted by the orchestration
control flow.  `Command`, `Args`, `CheckCommand`, `CheckArgs` and
`StartupDelay` only parametrise the external invocations, which are
modelled by the action trace and the `Env` oracles; the `VerifyAvailable`
closures are modelled by `verifyAvailable` below. -/
structure Component where
  name            : CompName
  requiredFor     : List CompName
  isRequired      : Bool
  commandExists   : Bool
  requiresStartup : Bool
  isBinary        : Bool
deriving DecidableEq, Repr

/-- Oracles for the external world, one field per probe site of
`startCmd.Run`.  Each field records what the corresponding external
command/HTTP probe would report at that point of the run. -/
structure Env where
  /-- `isCommandAvailable "podman"`. -/
  podmanAvailable : Bool
  /-- `isCommandAvailable "kind"`. -/
  kindAvailable : Bool
  /-- `isCommandAvailable "dapr"`. -/
  daprAvailable : Bool
  /-- `isCommandAvailable "temporal"`. -/
  temporalAvailable : Bool
  /-- whether `dapr dashboard --help` exits cleanly (the DaprDashboard
  `CommandExists` computation). -/
  daprDashboardHelpOK : Bool
  /-- `checkPodmanRunning`. -/
  podmanRunning : Bool
  /-- `checkKindRunning` (at least one cluster listed). -/
  kindHasClusters : Bool
  /-- `checkDaprRunning`, probed before any initialization. -/
  daprRunning : Bool
  /-- whether `dapr init --container-runtime podman` returns an error. -/
  daprInitFails : Bool
  /-- `checkDaprRunning` probed again after the init. -/
  daprRunningAfterInit : Bool
  /-- `getDaprDashboardPID` (the empty string means no process found). -/
  dashboardPID : String
  /-- whether the graceful `kill` of the dashboard PID returns an error. -/
  dashGracefulKillFails : Bool
  /-- `isPortInUse dashboardPort` probed right after the kill. -/
  dashPortBusyAfterKill : Bool
  /-- `isPortInUse dashboardPort`, final verification after forced cleanup. -/
  dashPortBusyAfterCleanup : Bool
  /-- `isPortInUse dashboardPort` probed just before starting the dashboard. -/
  dashPortBusyPreStart : Bool
  /-- `tryStartDashboard` outcome. -/
  dashboardStartOK : Bool
  /-- `checkTemporalServerRunning`, probed before any start. -/
  temporalRunning : Bool
  /-- whether `ps -ef` finds a `temporal server start-dev` process to kill. -/
  tmpProcFound : Bool
  /-- `isPortInUse temporalUIPort` probed after the process kill. -/
  tmpUIPortBusyPostKill : Bool
  /-- `isPortInUse temporalGRPCPort` probed after the process kill. -/
  tmpGRPCPortBusyPostKill : Bool
  /-- whether `lsof` finds PIDs on the Temporal UI port to force-kill. -/
  tmpUIPortPIDsFound : Bool
  /-- whether `lsof` finds PIDs on the Temporal GRPC port to force-kill. -/
  tmpGRPCPortPIDsFound : Bool
  /-- `isPortInUse temporalUIPort`, final verification of the restart path. -/
  tmpUIPortBusyFinal : Bool
  /-- `isPortInUse temporalGRPCPort`, final verification of the restart path. -/
  tmpGRPCPortBusyFinal : Bool
  /-- `isPortInUse temporalUIPort` when Temporal was not running at all. -/
  tmpUIPortBusyFresh : Bool
  /-- `isPortInUse temporalGRPCPort` when Temporal was not running at all. -/
  tmpGRPCPortBusyFresh : Bool
  /-- whether `temporalCmd.Start()` returns an error. -/
  temporalStartFails : Bool
  /-- whether the bounded retry loop eventually sees the Temporal server up. -/
  temporalUpAfterStart : Bool
  /-- whether `podman ps -a` lists an existing `opensearch-node` container. -/
  osExistingContainer : Bool
  /-- whether `podman rm -f opensearch-node` returns an error. -/
  osRemoveFails : Bool
  /-- whether `podman run` for OpenSearch returns an error. -/
  osStartFails : Bool
  /-- whether the retry loop sees the `opensearch-node` container running. -/
  osContainerUpAfterStart : Bool
  /-- whether the HTTP health retry loop gets a 2xx from OpenSearch. -/
  osHealthyAfterStart : Bool
  /-- result of `checkOpenSearchRunning` if invoked as `VerifyAvailable`. -/
  osVerifyReady : Bool
  /-- whether `podman ps` lists `opensearch-node` running when the
  dashboard component starts. -/
  osNodeRunningAtDashStart : Bool
  /-- whether `podman ps -a` lists an existing `opensearch-dashboard`. -/
  dashExistingContainer : Bool
  /-- whether `podman rm -f opensearch-dashboard` returns an error. -/
  dashRemoveFails : Bool
  /-- whether `podman run` for the dashboard returns an error. -/
  dashStartFails : Bool
  /-- whether the retry loop sees the `opensearch-dashboard` container up. -/
  dashContainerUpAfterStart : Bool
  /-- whether the dashboard HTTP retry loop gets any response at all. -/
  dashHTTPResponds : Bool
  /-- result of `checkOpenSearchDashboardRunning` if invoked as
  `VerifyAvailable`. -/
  dashVerifyReady : Bool
deriving Repr

/-- The command-line flags of `localenv start` that steer the modelled
control flow (`verbose` and `stream-logs` only affect logging). -/
structure StartFlags where
  skipDapr          : Bool
  skipTemporal      : Bool
  skipDaprDashboard : Bool
  skipOpenSearch    : Bool
  forceRestart      : Bool
deriving DecidableEq, Repr

/-- Mutating external actions issued by a `start` run: a component start
command (`dapr init`, `tryStartDashboard`, `temporal server start-dev`,
`podman run`), a component stop command (`kill`, `podman rm -f`), or a
snapshot save (`saveConfigCache`). -/
inductive Action
  | startComp (n : CompName)
  | stopComp  (n : CompName)
  | saveCache (c : ConfigCache)
deriving DecidableEq, Repr

/-- Terminal state of one component for one run. -/
inductive CompState
  /-- the run aborted (missing required binary) before the processing loop. -/
  | unprocessed
  /-- the component was skipped as not required. -/
  | skippedNotRequired
  /-- precondition failure: the named dependencies' binaries are missing. -/
  | missingDependency (deps : List CompName)
  /-- tool-kind component verified available (`IsRunning` set). -/
  | verified
  /-- tool-kind component failed verification. -/
  | verifyFailed
  /-- service already healthy; left untouched (`IsRunning` set). -/
  | alreadyRunning
  /-- started (or considered started) by this run (`IsRunning` set). -/
  | started
  /-- some failure in the start path; `IsRunning` stays false. -/
  | startFailed
deriving DecidableEq, Repr

/-- Whether the terminal state has `IsRunning = true` in the source. -/
def runningOf : CompState → Bool
  | .verified => true
  | .alreadyRunning => true
  | .started => true
  | _ => false

/-- The `VerifyAvailable` closure attached to each component of the
`components` slice literal. -/
def verifyAvailable : CompName → Env → Bool
  | .podman, e => e.podmanRunning
  | .kind, e => e.kindHasClusters
  | .dapr, e => e.daprRunning
  | .daprDashboard, _ => true
  | .temporal, e => e.temporalRunning
  | .openSearch, e => e.osVerifyReady
  | .openSearchDashboard, e => e.dashVerifyReady

/-- The bounded retry loop of `checkOpenSearchDashboardRunning`: up to
`fuel` HTTP probes; any response yields true, and exhaustion also yields
true ("return true anyway to avoid blocking the startup flow"). -/
def dashRetry (probe : Nat → Bool) : Nat → Nat → Bool
  | 0, _ => true
  | Nat.succ n, i => if probe i then true else dashRetry probe n (i + 1)

/-- `checkOpenSearchDashboardRunning` of `startCmd`: false when the
`opensearch-dashboard` container is not listed; otherwise the 15-attempt
HTTP retry loop, which cannot return false. -/
def checkOpenSearchDashboardRunning (containerListed : Bool)
    (probe : Nat → Bool) : Bool :=
  if !containerListed then false else dashRetry probe 15 0

/-- The line-255 classification of `startCmd`: the run counts as a first
run (and saves the snapshot immediately) when the cached Dapr dashboard
port and Temporal UI port are both zero. -/
def isFirstRunCache (cache : ConfigCache) : Bool :=
  cache.daprDashboardPort == 0 && cache.temporalUIPort == 0

/-- The lines 202-236 of `startCmd`: when a configuration was loaded, its
OpenSearch section is missing (both ports zero) and podman is available,
default OpenSearch settings are injected into the configuration. -/
def applyOpenSearchDefault (cfg : LocalEnvConfig)
    (configLoaded podmanAvailable : Bool) : LocalEnvConfig :=
  if configLoaded && cfg.openSearch.port == 0 &&
      cfg.openSearch.dashboardPort == 0 && podmanAvailable then
    { cfg with
      components := { cfg.components with openSearch := true }
      openSearch := { port := 9200, dashboardPort := 5601 } }
  else cfg

/-- The lines 260-271 of `startCmd`: each skip flag forces the matching
component flag of the loaded configuration to false. -/
def applySkips (cfg : LocalEnvConfig) (f : StartFlags) : LocalEnvConfig :=
  { cfg with components :=
    { dapr := if f.skipDapr then false else cfg.components.dapr
      temporal := if f.skipTemporal then false else cfg.components.temporal
      daprDashboard :=
        if f.skipDaprDashboard then false else cfg.components.daprDashboard
      openSearch :=
        if f.skipOpenSearch then false else cfg.components.openSearch } }

/-- The Podman entry of the `components` slice literal. -/
def podmanComp (env : Env) : Component :=
  { name := .podman
    requiredFor := [.kind, .dapr, .temporal, .openSearch]
    isRequired := true
    commandExists := env.podmanAvailable
    requiresStartup := false
    isBinary := true }

/-- The Kind entry of the `components` slice literal. -/
def kindComp (env : Env) : Component :=
  { name := .kind
    requiredFor := [.dapr, .temporal]
    isRequired := true
    commandExists := env.kindAvailable
    requiresStartup := false
    isBinary := true }

/-- The Dapr entry of the `components` slice literal. -/
def daprComp (cfg : LocalEnvConfig) (configLoaded : Bool) (flags : StartFlags)
    (env : Env) : Component :=
  { name := .dapr
    requiredFor := []
    isRequired := getDaprRequirement configLoaded cfg.components.dapr flags.skipDapr
    commandExists := env.daprAvailable
    requiresStartup := true
    isBinary := false }

/-- The DaprDashboard entry of the `components` slice literal. -/
def daprDashboardComp (cfg : LocalEnvConfig) (configLoaded : Bool)
    (flags : StartFlags) (env : Env) : Component :=
  { name := .daprDashboard
    requiredFor := []
    isRequired := getDaprDashboardRequirement configLoaded
      cfg.components.daprDashboard flags.skipDaprDashboard
    commandExists := env.daprDashboardHelpOK
    requiresStartup := true
    isBinary := false }

/-- The Temporal entry of the `components` slice literal. -/
def temporalComp (cfg : LocalEnvConfig) (configLoaded : Bool)
    (flags : StartFlags) (env : Env) : Component :=
  { name := .temporal
    requiredFor := []
    isRequired := getTemporalRequirement configLoaded
      cfg.components.temporal flags.skipTemporal
    commandExists := env.temporalAvailable
    requiresStartup := true
    isBinary := false }

/-- The OpenSearch entry of the `components` slice literal. -/
def openSearchComp (cfg : LocalEnvConfig) (configLoaded : Bool)
    (flags : StartFlags) (env : Env) : Component :=
  { name := .openSearch
    requiredFor := [.openSearchDashboard]
    isRequired := getOpenSearchRequirement configLoaded
      cfg.components.openSearch flags.skipOpenSearch
    commandExists := env.podmanAvailable
    requiresStartup := true
    isBinary := false }

/-- The OpenSearchDashboard entry of the `components` slice literal. -/
def openSearchDashboardComp (cfg : LocalEnvConfig) (configLoaded : Bool)
    (flags : StartFlags) (env : Env) : Component :=
  { name := .openSearchDashboard
    requiredFor := []
    isRequired := getOpenSearchRequirement configLoaded
      cfg.components.openSearch flags.skipOpenSearch
    commandExists := env.podmanAvailable
    requiresStartup := true
    isBinary := false }

/-- The component descriptor carrying a given name. -/
def nameToComp (cfg : LocalEnvConfig) (configLoaded : Bool)
    (flags : StartFlags) (env : Env) : CompName → Component
  | .podman => podmanComp env
  | .kind => kindComp env
  | .dapr => daprComp cfg configLoaded flags env
  | .daprDashboard => daprDashboardComp cfg configLoaded flags env
  | .temporal => temporalComp cfg configLoaded flags env
  | .openSearch => openSearchComp cfg configLoaded flags env
  | .openSearchDashboard => openSearchDashboardComp cfg configLoaded flags env

/-- The `components` slice literal of `startCmd`, in source order. -/
def mkComponents (cfg : LocalEnvConfig) (configLoaded : Bool)
    (flags : StartFlags) (env : Env) : List Component :=
  [nameToComp cfg configLoaded flags env .podman,
   nameToComp cfg configLoaded flags env .kind,
   nameToComp cfg configLoaded flags env .dapr,
   nameToComp cfg configLoaded flags env .daprDashboard,
   nameToComp cfg configLoaded flags env .temporal,
   nameToComp cfg configLoaded flags env .openSearch,
   nameToComp cfg configLoaded flags env .openSearchDashboard]

/-- The special handling of the Dapr component (lines 721-757): skip when
already running, otherwise run `dapr init`; after a clean init the
component is marked running even when the post-init probe is inconclusive. -/
def daprStep (env : Env) : CompState × List Action :=
  if env.daprRunning then (.alreadyRunning, [])
  else
    let acts := [Action.startComp .dapr]
    if env.daprInitFails then (.startFailed, acts)
    else if env.daprRunningAfterInit then (.started, acts)
    else (.started, acts)

/-- The special handling of the Dapr Dashboard component (lines 760-855):
drift-based restart decision, process termination and port cleanup, then a
background start. -/
def daprDashboardStep (cfg : LocalEnvConfig) (flags : StartFlags)
    (cache : ConfigCache) (configChanged : Bool) (env : Env) :
    CompState × List Action :=
  let dashboardPort := cfg.dapr.dashboardPort
  let pid := env.dashboardPID
  let restartRequired := flags.forceRestart ||
    (configChanged && pid != "" && (cache.daprDashboardPort != dashboardPort))
  if pid != "" && !restartRequired then (.alreadyRunning, [])
  else
    let killActs : List Action :=
      if pid != "" then
        [Action.stopComp .daprDashboard] ++
          (if env.dashGracefulKillFails then [Action.stopComp .daprDashboard] else []) ++
          (if env.dashPortBusyAfterKill then [Action.stopComp .daprDashboard] else [])
      else []
    if pid != "" && env.dashPortBusyAfterCleanup then (.startFailed, killActs)
    else if env.dashPortBusyPreStart then (.startFailed, killActs)
    else
      let acts := killActs ++ [Action.startComp .daprDashboard]
      if env.dashboardStartOK then (.started, acts) else (.startFailed, acts)

/-- The background launch of the Temporal server with its verification
retry loop (lines 969-1097). -/
def temporalLaunch (acts : List Action) (env : Env) : CompState × List Action :=
  let acts := acts ++ [Action.startComp .temporal]
  if env.temporalStartFails then (.startFailed, acts)
  else if env.temporalUpAfterStart then (.started, acts)
  else (.startFailed, acts)

/-- The special handling of the Temporal component (lines 858-1097):
drift-based restart decision, process/port teardown, then a fresh start. -/
def temporalStep (cfg : LocalEnvConfig) (flags : StartFlags)
    (cache : ConfigCache) (configChanged : Bool) (env : Env) :
    CompState × List Action :=
  let uiPort := cfg.temporal.uiPort
  let grpcPort := cfg.temporal.grpcPort
  let ns := cfg.temporal.nameSpace
  if env.temporalRunning then
    let restartRequired := flags.forceRestart ||
      (configChanged &&
        (cache.temporalUIPort != uiPort ||
          cache.temporalGRPCPort != grpcPort ||
          cache.temporalNamespace != ns))
    if !restartRequired then (.alreadyRunning, [])
    else
      let stopActs : List Action :=
        if env.tmpProcFound then [Action.stopComp .temporal] else []
      let lsofActs : List Action :=
        if !env.tmpProcFound || env.tmpUIPortBusyPostKill ||
            env.tmpGRPCPortBusyPostKill then
          (if env.tmpUIPortPIDsFound then [Action.stopComp .temporal] else []) ++
            (if env.tmpGRPCPortPIDsFound then [Action.stopComp .temporal] else [])
        else []
      let acts := stopActs ++ lsofActs
      if env.tmpUIPortBusyFinal then (.startFailed, acts)
      else if env.tmpGRPCPortBusyFinal then (.startFailed, acts)
      else temporalLaunch acts env
  else
    if env.tmpUIPortBusyFresh then (.startFailed, [])
    else if env.tmpGRPCPortBusyFresh then (.startFailed, [])
    else temporalLaunch [] env

/-- The `podman run` of OpenSearch with container and health verification
(lines 1124-1243). -/
def osLaunch (acts : List Action) (env : Env) : CompState × List Action :=
  let acts := acts ++ [Action.startComp .openSearch]
  if env.osStartFails then (.startFailed, acts)
  else if !env.osContainerUpAfterStart then (.startFailed, acts)
  else if env.osHealthyAfterStart then (.started, acts)
  else (.startFailed, acts)

/-- The special handling of the OpenSearch component (lines 1101-1243):
the existing container, when present, is unconditionally removed, and a
fresh container is always started (the network create is not a component
start or stop and is not traced). -/
def openSearchStep (env : Env) : CompState × List Action :=
  if env.osExistingContainer then
    let acts := [Action.stopComp .openSearch]
    if env.osRemoveFails then (.startFailed, acts)
    else osLaunch acts env
  else osLaunch [] env

/-- The `podman run` of the OpenSearch Dashboard with container and HTTP
verification (lines 1274-1394); when the container is up, the component is
marked running even if no HTTP probe got a response. -/
def dashLaunch (acts : List Action) (env : Env) : CompState × List Action :=
  let acts := acts ++ [Action.startComp .openSearchDashboard]
  if env.dashStartFails then (.startFailed, acts)
  else if !env.dashContainerUpAfterStart then (.startFailed, acts)
  else if env.dashHTTPResponds then (.started, acts)
  else (.started, acts)

/-- The special handling of the OpenSearch Dashboard component
(lines 1247-1396): requires the `opensearch-node` container to be running,
removes any existing dashboard container, then launches a fresh one. -/
def openSearchDashboardStep (env : Env) : CompState × List Action :=
  if !env.osNodeRunningAtDashStart then (.startFailed, [])
  else if env.dashExistingContainer then
    let acts := [Action.stopComp .openSearchDashboard]
    if env.dashRemoveFails then (.startFailed, acts)
    else dashLaunch acts env
  else dashLaunch [] env

/-- One iteration of the processing loop of `startCmd` (lines 654-1398)
for component `c`: the not-required skip, the dependency check, the
tool-kind verification path, and the per-name start blocks. -/
def compStep (cfg : LocalEnvConfig) (flags : StartFlags) (cache : ConfigCache)
    (configChanged : Bool) (env : Env) (comps : List Component)
    (c : Component) : CompState × List Action :=
  if !c.isRequired then (.skippedNotRequired, [])
  else
    let missingDeps := c.requiredFor.filter fun d =>
      comps.any fun dc => dc.name == d && !dc.commandExists
    if !missingDeps.isEmpty then (.missingDependency missingDeps, [])
    else if !c.requiresStartup then
      if verifyAvailable c.name env then (.verified, []) else (.verifyFailed, [])
    else
      match c.name with
      | .dapr => daprStep env
      | .daprDashboard => daprDashboardStep cfg flags cache configChanged env
      | .temporal => temporalStep cfg flags cache configChanged env
      | .openSearch => openSearchStep env
      | .openSearchDashboard => openSearchDashboardStep env
      | _ => (.startFailed, [])

/-- Terminal record of one component after a run. -/
structure CompEntry where
  name     : CompName
  required : Bool
  state    : CompState
deriving DecidableEq, Repr

/-- Outcome of one `localenv start` run: whether the run aborted at the
installation check, whether the process exits non-zero, the required
binaries found missing, the terminal state of every component, and the
ordered trace of mutating actions. -/
structure RunResult where
  aborted         : Bool
  exitFail        : Bool
  missingBinaries : List CompName
  entries         : List CompEntry
  actions         : List Action
deriving DecidableEq, Repr

/-- The `localenv start` orchestration (`startCmd.Run` of
`localenv_start.go`) as a pure function of the parsed configuration, the
flags, the loaded snapshot and the environment oracles. -/
def startRun (cfg0 : LocalEnvConfig) (configLoaded : Bool)
    (flags : StartFlags) (cache : ConfigCache) (env : Env) : RunResult :=
  let cfg1 := applyOpenSearchDefault cfg0 configLoaded env.podmanAvailable
  let drift := hasConfigChanged cfg1 cache
  let configChanged := drift.1
  let newCache := drift.2.1
  let firstSave : List Action :=
    if isFirstRunCache cache then [Action.saveCache newCache] else []
  let cfg := applySkips cfg1 flags
  let comps := mkComponents cfg configLoaded flags env
  let missing :=
    (comps.filter fun c => c.isRequired && !c.commandExists).map (·.name)
  if !missing.isEmpty then
    { aborted := true
      exitFail := true
      missingBinaries := missing
      entries := comps.map fun c => ⟨c.name, c.isRequired, .unprocessed⟩
      actions := firstSave }
  else
    let stepped := comps.map fun c =>
      (c, compStep cfg flags cache configChanged env comps c)
    let entries := stepped.map fun p => CompEntry.mk p.1.name p.1.isRequired p.2.1
    let loopActs := (stepped.map fun p => p.2.2).flatten
    let exitFail := stepped.any fun p => p.1.isRequired && !(runningOf p.2.1)
    { aborted := false
      exitFail := exitFail
      missingBinaries := []
      entries := entries
      actions := firstSave ++ loopActs ++
        (if exitFail then [] else [Action.saveCache newCache]) }

/-- Scan for the first entry carrying the given name. -/
def findStateAux : List CompEntry → CompName → CompState
  | [], _ => .unprocessed
  | e :: es, n => if e.name = n then e.state else findStateAux es n

/-- The terminal state recorded for the component named `n`. -/
def findState (r : RunResult) (n : CompName) : CompState :=
  findStateAux r.entries n

/-- Every binary is installed and every managed service is already healthy;
the fields that govern a (re)start of the OpenSearch pair report success, so
a forced container recreation also succeeds. -/
def envAllHealthy (e : Env) : Prop :=
  e.podmanAvailable = true ∧ e.kindAvailable = true ∧ e.daprAvailable = true ∧
  e.temporalAvailable = true ∧ e.daprDashboardHelpOK = true ∧
  e.podmanRunning = true ∧ e.kindHasClusters = true ∧ e.daprRunning = true ∧
  (e.dashboardPID != "") = true ∧ e.temporalRunning = true ∧
  e.osRemoveFails = false ∧ e.osStartFails = false ∧
  e.osContainerUpAfterStart = true ∧ e.osHealthyAfterStart = true ∧
  e.osNodeRunningAtDashStart = true ∧ e.dashRemoveFails = false ∧
  e.dashStartFails = false ∧ e.dashContainerUpAfterStart = true

/-- The all-zero snapshot (no prior cache file). -/
def zeroCache : ConfigCache := ⟨0, 0, 0, "", 0, 0⟩

/-- A fully populated configuration with every component enabled and the
conventional default ports. -/
def cfgFull : LocalEnvConfig :=
  ⟨⟨true, true, true, true⟩, ⟨"default", 8233, 7233⟩, ⟨8080, 9411⟩, ⟨9200, 5601⟩⟩

/-- A prior snapshot exactly matching `cfgFull` (no drift, not a first run). -/
def cacheFull : ConfigCache := ⟨8080, 8233, 7233, "default", 9200, 5601⟩

/-- No skip flags, no force-restart. -/
def flagsNone : StartFlags := ⟨false, false, false, false, false⟩

/-- An environment where every binary is installed and every service is
already healthy, existing OpenSearch containers are present, and any
restart would succeed. -/
def envFull : Env :=
  { podmanAvailable := true, kindAvailable := true, daprAvailable := true,
    temporalAvailable := true, daprDashboardHelpOK := true,
    podmanRunning := true, kindHasClusters := true, daprRunning := true,
    daprInitFails := false, daprRunningAfterInit := true,
    dashboardPID := "4242", dashGracefulKillFails := false,
    dashPortBusyAfterKill := false, dashPortBusyAfterCleanup := false,
    dashPortBusyPreStart := false, dashboardStartOK := true,
    temporalRunning := true, tmpProcFound := true,
    tmpUIPortBusyPostKill := false, tmpGRPCPortBusyPostKill := false,
    tmpUIPortPIDsFound := false, tmpGRPCPortPIDsFound := false,
    tmpUIPortBusyFinal := false, tmpGRPCPortBusyFinal := false,
    tmpUIPortBusyFresh := false, tmpGRPCPortBusyFresh := false,
    temporalStartFails := false, temporalUpAfterStart := true,
    osExistingContainer := true, osRemoveFails := false, osStartFails := false,
    osContainerUpAfterStart := true, osHealthyAfterStart := true,
    osVerifyReady := true, osNodeRunningAtDashStart := true,
    dashExistingContainer := true, dashRemoveFails := false,
    dashStartFails := false, dashContainerUpAfterStart := true,
    dashHTTPResponds := true, dashVerifyReady := true }

/-- `envFull` with the `kind` binary missing. -/
def envNoKind : Env := { envFull with kindAvailable := false }

/-- `envFull` with the `dapr` binary missing. -/
def envNoDapr : Env := { envFull with daprAvailable := false }

/-- `envFull` with the `temporal` binary missing. -/
def envNoTemporal : Env := { envFull with temporalAvailable := false }

/-- `envFull` with the OpenSearch Dashboard HTTP probes never answered. -/
def envDashSilent : Env := { envFull with dashHTTPResponds := false }

/-- Only the skip-dapr flag set. -/
def flagsSkipDapr : StartFlags := ⟨true, false, false, false, false⟩

/-- The all-zero configuration (no file parsed into the struct). -/
def cfgZero : LocalEnvConfig :=
  ⟨⟨false, false, false, false⟩, ⟨"", 0, 0⟩, ⟨0, 0⟩, ⟨0, 0⟩⟩

/-- A snapshot whose only non-zero field is the Dapr dashboard port. -/
def cacheDashOne : ConfigCache := ⟨1, 0, 0, "", 0, 0⟩

/-- Per-field drift test on an integer field, as each `if` block of
`hasConfigChanged` performs it: previous value non-zero and different from
the current one (the current value is not required to be non-zero). -/
def intDrift (prev cur : Int) : Bool := prev != 0 && prev != cur

/-- Per-field drift test on the namespace field of `hasConfigChanged`. -/
def strDrift (prev cur : String) : Bool := prev != "" && prev != cur

/-! ## Helper lemmas shared by the claim theorems -/

theorem daprStep_shape (env : Env) :
    ∀ a ∈ (daprStep env).2, a = Action.startComp .dapr ∨ a = Action.stopComp .dapr := by
  intro a ha
  unfold daprStep at ha
  repeat' split at ha
  all_goals (try simp_all)
  all_goals (try tauto)

theorem daprDashboardStep_shape (cfg : LocalEnvConfig) (flags : StartFlags)
    (cache : ConfigCache) (cc : Bool) (env : Env) :
    ∀ a ∈ (daprDashboardStep cfg flags cache cc env).2,
      a = Action.startComp .daprDashboard ∨ a = Action.stopComp .daprDashboard := by
  intro a ha
  unfold daprDashboardStep at ha
  repeat' split at ha
  all_goals (try simp_all)
  all_goals (try tauto)
  all_goals (repeat' split at ha)
  all_goals (try simp_all)
  all_goals (try tauto)

set_option maxHeartbeats 1000000 in
theorem temporalStep_shape (cfg : LocalEnvConfig) (flags : StartFlags)
    (cache : ConfigCache) (cc : Bool) (env : Env) :
    ∀ a ∈ (temporalStep cfg flags cache cc env).2,
      a = Action.startComp .temporal ∨ a = Action.stopComp .temporal := by
  intro a ha
  unfold temporalStep temporalLaunch at ha
  repeat' split at ha
  all_goals (try simp_all)
  all_goals (try tauto)
  all_goals (repeat' split at ha)
  all_goals (try simp_all)
  all_goals (try tauto)

theorem openSearchStep_shape (env : Env) :
    ∀ a ∈ (openSearchStep env).2,
      a = Action.startComp .openSearch ∨ a = Action.stopComp .openSearch := by
  intro a ha
  unfold openSearchStep osLaunch at ha
  repeat' split at ha
  all_goals (try simp_all)
  all_goals (try tauto)

theorem openSearchDashboardStep_shape (env : Env) :
    ∀ a ∈ (openSearchDashboardStep env).2,
      a = Action.startComp .openSearchDashboard ∨ a = Action.stopComp .openSearchDashboard := by
  intro a ha
  unfold openSearchDashboardStep dashLaunch at ha
  repeat' split at ha
  all_goals (try simp_all)
  all_goals (try tauto)

set_option maxHeartbeats 1600000 in
theorem compStep_shape (cfg : LocalEnvConfig) (flags : StartFlags)
    (cache : ConfigCache) (cc : Bool) (env : Env) (comps : List Component)
    (c : Component) :
    ∀ a ∈ (compStep cfg flags cache cc env comps c).2,
      a = Action.startComp c.name ∨ a = Action.stopComp c.name := by
  intro a ha
  obtain ⟨n, rf, req, ce, rs, bin⟩ := c
  unfold compStep at ha
  cases n
  all_goals (repeat' split at ha)
  all_goals (try simp_all)
  all_goals (try tauto)
  all_goals (repeat' split at ha)
  all_goals (try simp_all)
  all_goals (try tauto)
  all_goals
    first
      | exact daprStep_shape env a ha
      | exact daprDashboardStep_shape cfg flags cache cc env a ha
      | exact temporalStep_shape cfg flags cache cc env a ha
      | exact openSearchStep_shape env a ha
      | exact openSearchDashboardStep_shape env a ha

theorem compStep_no_save (cfg : LocalEnvConfig) (flags : StartFlags)
    (cache : ConfigCache) (cc : Bool) (env : Env) (comps : List Component)
    (c : Component) (nc : ConfigCache) :
    Action.saveCache nc ∉ (compStep cfg flags cache cc env comps c).2 := by
  intro ha
  rcases compStep_shape cfg flags cache cc env comps c _ ha with h | h <;> simp at h

theorem comps_mem_eq (cfg : LocalEnvConfig) (configLoaded : Bool)
    (flags : StartFlags) (env : Env) :
    ∀ c ∈ mkComponents cfg configLoaded flags env,
      c = nameToComp cfg configLoaded flags env c.name := by
  intro c hc
  simp only [mkComponents, List.mem_cons, List.not_mem_nil, or_false] at hc
  rcases hc with rfl | rfl | rfl | rfl | rfl | rfl | rfl <;> rfl

end DevHelper

namespace DevHelper

theorem dashRetry_true (probe : Nat → Bool) :
    ∀ fuel i, dashRetry probe fuel i = true := by
  intro fuel
  induction fuel with
  | zero => intro i; rfl
  | succ n ih =>
    intro i
    unfold dashRetry
    split <;> simp [ih]

theorem startRun_first_save (cfg0 : LocalEnvConfig) (configLoaded : Bool)
    (flags : StartFlags) (cache : ConfigCache) (env : Env)
    (hfr : isFirstRunCache cache = true) :
    (startRun cfg0 configLoaded flags cache env).actions.head? =
      some (Action.saveCache (hasConfigChanged
        (applyOpenSearchDefault cfg0 configLoaded env.podmanAvailable) cache).2.1) := by
  simp only [startRun]
  split <;> simp [hfr]

theorem startRun_success_save (cfg0 : LocalEnvConfig) (configLoaded : Bool)
    (flags : StartFlags) (cache : ConfigCache) (env : Env)
    (hsucc : (startRun cfg0 configLoaded flags cache env).exitFail = false) :
    Action.saveCache (hasConfigChanged
        (applyOpenSearchDefault cfg0 configLoaded env.podmanAvailable) cache).2.1 ∈
      (startRun cfg0 configLoaded flags cache env).actions := by
  simp only [startRun] at hsucc ⊢
  split at hsucc <;> rename_i h
  · simp at hsucc
  · rw [if_neg h]
    dsimp only at hsucc ⊢
    simp [hsucc]

theorem startRun_no_save_of_fail (cfg0 : LocalEnvConfig) (configLoaded : Bool)
    (flags : StartFlags) (cache : ConfigCache) (env : Env)
    (hnfr : isFirstRunCache cache = false)
    (hfail : (startRun cfg0 configLoaded flags cache env).exitFail = true) :
    ∀ nc, Action.saveCache nc ∉ (startRun cfg0 configLoaded flags cache env).actions := by
  intro nc hmem
  simp only [startRun] at hfail hmem
  split at hmem
  · simp [hnfr] at hmem
  · simp only [List.mem_append] at hmem
    rcases hmem with (hmem | hmem) | hmem
    · simp [hnfr] at hmem
    · rw [List.mem_flatten] at hmem
      obtain ⟨l, hl, hal⟩ := hmem
      simp only [List.mem_map] at hl
      obtain ⟨p, hp, rfl⟩ := hl
      obtain ⟨c, hc, rfl⟩ := hp
      exact compStep_no_save _ _ _ _ _ _ _ _ hal
    · rename_i h
      rw [if_neg h] at hfail
      dsimp only at hfail
      simp only [hfail] at hmem
      simp at hmem

end DevHelper

namespace DevHelper

/-- Claim C2 (confirmed): for every combination of the boolean inputs, the
requirement helpers `getDaprRequirement`, `getTemporalRequirement` and
`getDaprDashboardRequirement` return the configuration's enabled flag
whenever `configLoaded = true`, regardless of the skip flag, and the
negation of the skip flag whenever `configLoaded = false`. -/
theorem c2_requirement_precedence (configValue skipFlag : Bool) :
    getDaprRequirement true configValue skipFlag = configValue ∧
    getTemporalRequirement true configValue skipFlag = configValue ∧
    getDaprDashboardRequirement true configValue skipFlag = configValue ∧
    getDaprRequirement false configValue skipFlag = !skipFlag ∧
    getTemporalRequirement false configValue skipFlag = !skipFlag ∧
    getDaprDashboardRequirement false configValue skipFlag = !skipFlag := by
  simp [getDaprRequirement, getTemporalRequirement, getDaprDashboardRequirement]

/-- Claim C3 (confirmed): for every configuration value, `hasConfigChanged`
applied to the zero-valued prior snapshot (all cached ports 0, cached
namespace empty) reports no changes and an empty change list. -/
theorem c3_first_run_safety (config : LocalEnvConfig) :
    (hasConfigChanged config zeroCache).1 = false ∧
    (hasConfigChanged config zeroCache).2.2 = [] :=
  ⟨rfl, rfl⟩

/-- Claim C4 counterexample: with an all-zero current configuration and a
prior snapshot whose Dapr dashboard port is 1, `hasConfigChanged` records a
change entry and sets hasChanges even though the current value (0) is not
non-zero, refuting the claim that a change is recorded only when both the
old and the new value are non-zero. -/
theorem c4_counterexample :
    (hasConfigChanged cfgZero cacheDashOne).1 = true ∧
    (hasConfigChanged cfgZero cacheDashOne).2.2.length = 1 ∧
    cfgZero.dapr.dashboardPort = 0 := by
  refine ⟨rfl, rfl, rfl⟩

/-- Claim C4 (amended): a change entry is recorded, and hasChanges set, for
exactly those fields whose previous snapshot value is non-zero (non-empty
for the namespace) and differs from the current configuration value; the
current value is not required to be non-zero. -/
theorem c4_drift_characterization (config : LocalEnvConfig) (cache : ConfigCache) :
    (hasConfigChanged config cache).1 =
      (intDrift cache.daprDashboardPort config.dapr.dashboardPort ||
       intDrift cache.temporalUIPort config.temporal.uiPort ||
       intDrift cache.temporalGRPCPort config.temporal.grpcPort ||
       strDrift cache.temporalNamespace config.temporal.nameSpace ||
       intDrift cache.openSearchPort config.openSearch.port ||
       intDrift cache.openSearchDashPort config.openSearch.dashboardPort) ∧
    (hasConfigChanged config cache).2.2.length =
      ((intDrift cache.daprDashboardPort config.dapr.dashboardPort).toNat +
       (intDrift cache.temporalUIPort config.temporal.uiPort).toNat +
       (intDrift cache.temporalGRPCPort config.temporal.grpcPort).toNat +
       (strDrift cache.temporalNamespace config.temporal.nameSpace).toNat +
       (intDrift cache.openSearchPort config.openSearch.port).toNat +
       (intDrift cache.openSearchDashPort config.openSearch.dashboardPort).toNat) := by
  simp only [hasConfigChanged, intDrift, strDrift]
  cases h1 : (cache.daprDashboardPort != 0 && cache.daprDashboardPort != config.dapr.dashboardPort) <;>
  cases h2 : (cache.temporalUIPort != 0 && cache.temporalUIPort != config.temporal.uiPort) <;>
  cases h3 : (cache.temporalGRPCPort != 0 && cache.temporalGRPCPort != config.temporal.grpcPort) <;>
  cases h4 : (cache.temporalNamespace != "" && cache.temporalNamespace != config.temporal.nameSpace) <;>
  cases h5 : (cache.openSearchPort != 0 && cache.openSearchPort != config.openSearch.port) <;>
  cases h6 : (cache.openSearchDashPort != 0 && cache.openSearchDashPort != config.openSearch.dashboardPort) <;>
  simp [h1, h2, h3, h4, h5, h6]

/-- Claim C8 (confirmed): the stop command treats the Dapr uninstall as
successful iff the command exits with status zero, or its combined output
contains both "Error removing Dapr" and "docker" while podman is
available; exactly in these cases the component is counted as stopped. -/
theorem c8_benign_error_tolerance (o : DaprUninstallObs) :
    (daprUninstallSuccess o = true ↔
      (o.exitErr = false ∨
        (strContains o.output "Error removing Dapr" = true ∧
         strContains o.output "docker" = true ∧
         o.podmanAvailable = true))) ∧
    (daprStopIncrement o = 1 ↔ daprUninstallSuccess o = true) := by
  obtain ⟨e, out, p⟩ := o
  cases e <;> cases p <;>
    cases h1 : strContains out "Error removing Dapr" <;>
    cases h2 : strContains out "docker" <;>
    simp_all [daprUninstallSuccess, daprStopIncrement]

/-- Claim C9 (confirmed): whenever the opensearch-dashboard container is
listed as running, the dashboard verification ends with the component
marked running even if every HTTP probe gets no response: the closure
`checkOpenSearchDashboardRunning` returns true for every probe sequence
once the container is listed, and the start-block step for the
OpenSearchDashboard component terminates `started` with all HTTP probes
unanswered. -/
theorem c9_dashboard_verification_lenient
    (probe : Nat → Bool) (cfg : LocalEnvConfig) (configLoaded : Bool)
    (flags : StartFlags) (cache : ConfigCache) (configChanged : Bool)
    (env : Env) (comps : List Component)
    (hreq : getOpenSearchRequirement configLoaded cfg.components.openSearch
      flags.skipOpenSearch = true)
    (hnode : env.osNodeRunningAtDashStart = true)
    (hrm : env.dashRemoveFails = false)
    (hstart : env.dashStartFails = false)
    (hup : env.dashContainerUpAfterStart = true)
    (hresp : env.dashHTTPResponds = false) :
    checkOpenSearchDashboardRunning true probe = true ∧
    (compStep cfg flags cache configChanged env comps
        (openSearchDashboardComp cfg configLoaded flags env)).1 =
      CompState.started := by
  constructor
  · exact dashRetry_true probe 15 0
  · cases hde : env.dashExistingContainer <;>
      simp [compStep, openSearchDashboardComp, hreq, openSearchDashboardStep,
        dashLaunch, hnode, hrm, hstart, hup, hresp, hde]

theorem c9_witness :
    (getOpenSearchRequirement true cfgFull.components.openSearch
        flagsNone.skipOpenSearch = true ∧
      envDashSilent.osNodeRunningAtDashStart = true ∧
      envDashSilent.dashRemoveFails = false ∧
      envDashSilent.dashStartFails = false ∧
      envDashSilent.dashContainerUpAfterStart = true ∧
      envDashSilent.dashHTTPResponds = false) ∧
    (checkOpenSearchDashboardRunning true (fun _ => false) = true ∧
      (compStep cfgFull flagsNone cacheFull false envDashSilent []
          (openSearchDashboardComp cfgFull true flagsNone envDashSilent)).1 =
        CompState.started) :=
  ⟨⟨rfl, rfl, rfl, rfl, rfl, rfl⟩,
    c9_dashboard_verification_lenient (fun _ => false) cfgFull true flagsNone
      cacheFull false envDashSilent [] rfl rfl rfl rfl rfl rfl⟩

/-- Claim C10 (confirmed): the start command classifies a run as a first
run exactly when the cached `DaprDashboardPort` and `TemporalUIPort` are
both zero; the other cached fields play no role; a first run saves the
fresh snapshot immediately (it heads the action trace), and a non-first
failing run saves nothing. -/
theorem c10_first_run_classification
    (cache c2 : ConfigCache) (cfg0 : LocalEnvConfig) (configLoaded : Bool)
    (flags : StartFlags) (env : Env)
    (h1 : c2.daprDashboardPort = cache.daprDashboardPort)
    (h2 : c2.temporalUIPort = cache.temporalUIPort) :
    (isFirstRunCache cache = true ↔
      (cache.daprDashboardPort = 0 ∧ cache.temporalUIPort = 0)) ∧
    isFirstRunCache c2 = isFirstRunCache cache ∧
    (isFirstRunCache cache = true →
      (startRun cfg0 configLoaded flags cache env).actions.head? =
        some (Action.saveCache (hasConfigChanged
          (applyOpenSearchDefault cfg0 configLoaded env.podmanAvailable) cache).2.1)) ∧
    (isFirstRunCache cache = false →
      (startRun cfg0 configLoaded flags cache env).exitFail = true →
      ∀ nc, Action.saveCache nc ∉ (startRun cfg0 configLoaded flags cache env).actions) := by
  refine ⟨?_, ?_, ?_, ?_⟩
  · simp [isFirstRunCache]
  · simp [isFirstRunCache, h1, h2]
  · intro hfr
    exact startRun_first_save cfg0 configLoaded flags cache env hfr
  · intro hnfr hfail
    exact startRun_no_save_of_fail cfg0 configLoaded flags cache env hnfr hfail

theorem c10_witness :
    (cacheFull.daprDashboardPort = cacheFull.daprDashboardPort ∧
      cacheFull.temporalUIPort = cacheFull.temporalUIPort) ∧
    ((isFirstRunCache cacheFull = true ↔
        (cacheFull.daprDashboardPort = 0 ∧ cacheFull.temporalUIPort = 0)) ∧
      isFirstRunCache cacheFull = isFirstRunCache cacheFull ∧
      (isFirstRunCache cacheFull = true →
        (startRun cfgFull true flagsNone cacheFull envNoTemporal).actions.head? =
          some (Action.saveCache (hasConfigChanged
            (applyOpenSearchDefault cfgFull true envNoTemporal.podmanAvailable)
            cacheFull).2.1)) ∧
      (isFirstRunCache cacheFull = false →
        (startRun cfgFull true flagsNone cacheFull envNoTemporal).exitFail = true →
        ∀ nc, Action.saveCache nc ∉
          (startRun cfgFull true flagsNone cacheFull envNoTemporal).actions)) :=
  ⟨⟨rfl, rfl⟩,
    c10_first_run_classification cacheFull cacheFull cfgFull true flagsNone
      envNoTemporal rfl rfl⟩

end DevHelper

namespace DevHelper

/-- Claim C5 counterexample: a non-first run (non-zero prior snapshot)
whose required Temporal binary is missing ends with a failed exit and an
empty action trace: no snapshot is persisted, refuting "persisted
regardless of whether the run succeeded or failed". -/
theorem c5_counterexample :
    (startRun cfgFull true flagsNone cacheFull envNoTemporal).exitFail = true ∧
    (startRun cfgFull true flagsNone cacheFull envNoTemporal).actions = [] := by
  decide

/-- Claim C5 (amended): the freshly built snapshot is persisted immediately
on a first run (zero classification ports in the prior cache), and at the
end of the run only when the run succeeds; a failing non-first run
persists nothing. -/
theorem c5_snapshot_persistence_amended (cfg0 : LocalEnvConfig)
    (configLoaded : Bool) (flags : StartFlags) (cache : ConfigCache) (env : Env) :
    (isFirstRunCache cache = true →
      (startRun cfg0 configLoaded flags cache env).actions.head? =
        some (Action.saveCache (hasConfigChanged
          (applyOpenSearchDefault cfg0 configLoaded env.podmanAvailable) cache).2.1)) ∧
    ((startRun cfg0 configLoaded flags cache env).exitFail = false →
      Action.saveCache (hasConfigChanged
          (applyOpenSearchDefault cfg0 configLoaded env.podmanAvailable) cache).2.1 ∈
        (startRun cfg0 configLoaded flags cache env).actions) ∧
    ((startRun cfg0 configLoaded flags cache env).exitFail = true →
      isFirstRunCache cache = false →
      ∀ nc, Action.saveCache nc ∉ (startRun cfg0 configLoaded flags cache env).actions) :=
  ⟨fun hfr => startRun_first_save cfg0 configLoaded flags cache env hfr,
   fun hs => startRun_success_save cfg0 configLoaded flags cache env hs,
   fun hf hn => startRun_no_save_of_fail cfg0 configLoaded flags cache env hn hf⟩

theorem c5_witness :
    isFirstRunCache zeroCache = true ∧
    (startRun cfgFull true flagsNone zeroCache envFull).exitFail = false ∧
    ((startRun cfgFull true flagsNone zeroCache envFull).actions.head? =
      some (Action.saveCache (hasConfigChanged
        (applyOpenSearchDefault cfgFull true envFull.podmanAvailable) zeroCache).2.1)) ∧
    Action.saveCache (hasConfigChanged
        (applyOpenSearchDefault cfgFull true envFull.podmanAvailable) zeroCache).2.1 ∈
      (startRun cfgFull true flagsNone zeroCache envFull).actions :=
  ⟨rfl, by decide,
   (c5_snapshot_persistence_amended cfgFull true flagsNone zeroCache envFull).1 rfl,
   (c5_snapshot_persistence_amended cfgFull true flagsNone zeroCache envFull).2.1 (by decide)⟩

/-- Claim C6 counterexample: with the required Dapr binary missing, the run
aborts at the installation check: the independent healthy Temporal
component is never attempted (terminal state unprocessed) and no actions
are issued, refuting "the start orchestration still attempts every
independent component". -/
theorem c6_counterexample :
    (startRun cfgFull true flagsNone cacheFull envNoDapr).aborted = true ∧
    findState (startRun cfgFull true flagsNone cacheFull envNoDapr)
      CompName.temporal = CompState.unprocessed ∧
    (startRun cfgFull true flagsNone cacheFull envNoDapr).actions = [] := by
  decide

/-- Claim C6 (amended): when some required component's binary is missing,
every such missing binary is collected and reported, and the run exits
with failure immediately after the installation check, before any
component is processed: no start or stop command is issued and every
component ends unprocessed. -/
theorem c6_missing_binary_aborts (cfg0 : LocalEnvConfig) (configLoaded : Bool)
    (flags : StartFlags) (cache : ConfigCache) (env : Env)
    (h : ((mkComponents (applySkips (applyOpenSearchDefault cfg0 configLoaded
        env.podmanAvailable) flags) configLoaded flags env).filter
        fun c => c.isRequired && !c.commandExists) ≠ []) :
    (startRun cfg0 configLoaded flags cache env).aborted = true ∧
    (startRun cfg0 configLoaded flags cache env).exitFail = true ∧
    (startRun cfg0 configLoaded flags cache env).missingBinaries =
      ((mkComponents (applySkips (applyOpenSearchDefault cfg0 configLoaded
          env.podmanAvailable) flags) configLoaded flags env).filter
          fun c => c.isRequired && !c.commandExists).map (·.name) ∧
    (∀ e ∈ (startRun cfg0 configLoaded flags cache env).entries,
      e.state = CompState.unprocessed) ∧
    (∀ n, Action.startComp n ∉ (startRun cfg0 configLoaded flags cache env).actions ∧
      Action.stopComp n ∉ (startRun cfg0 configLoaded flags cache env).actions) := by
  have hcond : (!(((mkComponents (applySkips (applyOpenSearchDefault cfg0
      configLoaded env.podmanAvailable) flags) configLoaded flags env).filter
      fun c => c.isRequired && !c.commandExists).map (·.name)).isEmpty) = true := by
    simp only [Bool.not_eq_true', List.isEmpty_eq_false, ne_eq, List.map_eq_nil_iff]
    exact h
  simp only [startRun]
  rw [if_pos hcond]
  refine ⟨rfl, rfl, rfl, ?_, ?_⟩
  · intro e he
    simp only [List.mem_map] at he
    obtain ⟨c, hc, rfl⟩ := he
    rfl
  · intro n
    constructor <;> intro hmem <;>
      rcases hfr : isFirstRunCache cache <;> simp [hfr] at hmem

theorem c6_witness :
    ((mkComponents (applySkips (applyOpenSearchDefault cfgFull true
        envNoDapr.podmanAvailable) flagsNone) true flagsNone envNoDapr).filter
        fun c => c.isRequired && !c.commandExists) ≠ [] ∧
    (startRun cfgFull true flagsNone cacheFull envNoDapr).aborted = true ∧
    (startRun cfgFull true flagsNone cacheFull envNoDapr).missingBinaries =
      [CompName.dapr] :=
  ⟨by decide,
   (c6_missing_binary_aborts cfgFull true flagsNone cacheFull envNoDapr (by decide)).1,
   by decide⟩

end DevHelper

namespace DevHelper

theorem compStep_dep_missing (cfg : LocalEnvConfig) (flags : StartFlags)
    (cache : ConfigCache) (cc : Bool) (env : Env) (comps : List Component)
    (c : Component)
    (hdep : (c.requiredFor.any fun d =>
      comps.any fun dc => dc.name == d && !dc.commandExists) = true) :
    (compStep cfg flags cache cc env comps c).2 = [] ∧
    (c.isRequired = true →
      compStep cfg flags cache cc env comps c =
        (.missingDependency (c.requiredFor.filter fun d =>
          comps.any fun dc => dc.name == d && !dc.commandExists), [])) := by
  have hfil : ((c.requiredFor.filter fun d =>
      comps.any fun dc => dc.name == d && !dc.commandExists).isEmpty) = false := by
    rw [List.isEmpty_eq_false]
    rw [ne_eq, List.filter_eq_nil_iff]
    simp only [List.any_eq_true] at hdep
    obtain ⟨d, hd, hpd⟩ := hdep
    intro hall
    exact absurd hpd (by simpa using hall d hd)
  by_cases hreq : c.isRequired = true
  · unfold compStep
    simp [hreq, hfil]
  · have hreq' : c.isRequired = false := by
      rcases hr : c.isRequired
      · rfl
      · exact absurd hr hreq
    unfold compStep
    simp [hreq']

end DevHelper

namespace DevHelper

/-- Claim C7 counterexample: with the Kind binary missing, the Podman
component has a listed dependency whose CommandExists is false, yet its
terminal state is `unprocessed` (the run aborted at the installation
check), not a per-component precondition failure naming the missing
dependency. -/
theorem c7_counterexample :
    ((nameToComp (applySkips (applyOpenSearchDefault cfgFull true
          envNoKind.podmanAvailable) flagsNone) true flagsNone envNoKind
        CompName.podman).requiredFor.any fun d =>
      (mkComponents (applySkips (applyOpenSearchDefault cfgFull true
          envNoKind.podmanAvailable) flagsNone) true flagsNone envNoKind).any
        fun dc => dc.name == d && !dc.commandExists) = true ∧
    findState (startRun cfgFull true flagsNone cacheFull envNoKind)
      CompName.podman = CompState.unprocessed := by
  decide

/-- Claim C7 (amended): a component one of whose listed dependencies has
CommandExists = false never has its start command executed; and when the
run passes the installation check and the component is required, its
terminal state is the precondition failure naming exactly the missing
dependencies. -/
theorem c7_dependency_gating_amended (cfg0 : LocalEnvConfig)
    (configLoaded : Bool) (flags : StartFlags) (cache : ConfigCache) (env : Env) :
    ∀ c ∈ mkComponents (applySkips (applyOpenSearchDefault cfg0 configLoaded
        env.podmanAvailable) flags) configLoaded flags env,
      (c.requiredFor.any fun d =>
        (mkComponents (applySkips (applyOpenSearchDefault cfg0 configLoaded
            env.podmanAvailable) flags) configLoaded flags env).any
          fun dc => dc.name == d && !dc.commandExists) = true →
      Action.startComp c.name ∉ (startRun cfg0 configLoaded flags cache env).actions ∧
      ((startRun cfg0 configLoaded flags cache env).aborted = false →
        c.isRequired = true →
        findState (startRun cfg0 configLoaded flags cache env) c.name =
          CompState.missingDependency (c.requiredFor.filter fun d =>
            (mkComponents (applySkips (applyOpenSearchDefault cfg0 configLoaded
                env.podmanAvailable) flags) configLoaded flags env).any
              fun dc => dc.name == d && !dc.commandExists)) := by
  intro c hc hdep
  constructor
  · intro hmem
    simp only [startRun] at hmem
    split at hmem
    · rcases hfr : isFirstRunCache cache <;> simp [hfr] at hmem
    · simp only [List.mem_append] at hmem
      rcases hmem with (hmem | hmem) | hmem
      · rcases hfr : isFirstRunCache cache <;> simp [hfr] at hmem
      · rw [List.mem_flatten] at hmem
        obtain ⟨l, hl, hal⟩ := hmem
        simp only [List.mem_map] at hl
        obtain ⟨p, hp, rfl⟩ := hl
        obtain ⟨cc, hcc, rfl⟩ := hp
        rcases compStep_shape _ _ _ _ _ _ cc _ hal with he | he
        · have hname : c.name = cc.name := by
            injection he
          have h1 := comps_mem_eq _ _ _ _ c hc
          have h2 := comps_mem_eq _ _ _ _ cc hcc
          have hceq : cc = c := by
            rw [h2, ← hname, ← h1]
          subst hceq
          rw [(compStep_dep_missing _ _ _ _ _ _ _ hdep).1] at hal
          simp at hal
        · simp at he
      · split at hmem <;> simp at hmem
  · intro haborted hreq
    by_cases hC : (!((((mkComponents (applySkips (applyOpenSearchDefault cfg0
        configLoaded env.podmanAvailable) flags) configLoaded flags env).filter
        fun c => c.isRequired && !c.commandExists)).map (·.name)).isEmpty) = true
    · exfalso
      simp only [startRun] at haborted
      rw [if_pos hC] at haborted
      simp at haborted
    · have hstep := (compStep_dep_missing (applySkips (applyOpenSearchDefault
        cfg0 configLoaded env.podmanAvailable) flags) flags cache
        (hasConfigChanged (applyOpenSearchDefault cfg0 configLoaded
          env.podmanAvailable) cache).1 env
        (mkComponents (applySkips (applyOpenSearchDefault cfg0 configLoaded
          env.podmanAvailable) flags) configLoaded flags env) c hdep).2 hreq
      simp only [startRun, findState]
      rw [if_neg hC]
      dsimp only
      simp only [mkComponents, List.mem_cons, List.not_mem_nil, or_false] at hc
      rcases hc with rfl | rfl | rfl | rfl | rfl | rfl | rfl
      · simp only [mkComponents, nameToComp, podmanComp, kindComp, daprComp,
          daprDashboardComp, temporalComp, openSearchComp,
          openSearchDashboardComp, List.map_cons, List.map_nil,
          findStateAux] at hstep ⊢
        simp [hstep]
      · simp only [mkComponents, nameToComp, podmanComp, kindComp, daprComp,
          daprDashboardComp, temporalComp, openSearchComp,
          openSearchDashboardComp, List.map_cons, List.map_nil,
          findStateAux] at hstep ⊢
        simp [hstep]
      · exact absurd hdep (by simp [nameToComp, daprComp])
      · exact absurd hdep (by simp [nameToComp, daprDashboardComp])
      · exact absurd hdep (by simp [nameToComp, temporalComp])
      · simp only [mkComponents, nameToComp, podmanComp, kindComp, daprComp,
          daprDashboardComp, temporalComp, openSearchComp,
          openSearchDashboardComp, List.map_cons, List.map_nil,
          findStateAux] at hstep ⊢
        simp [hstep]
      · exact absurd hdep (by simp [nameToComp, openSearchDashboardComp])

end DevHelper

namespace DevHelper

theorem c7_witness :
    (nameToComp (applySkips (applyOpenSearchDefault cfgFull true
        envNoDapr.podmanAvailable) flagsSkipDapr) true flagsSkipDapr envNoDapr
        CompName.podman ∈
      mkComponents (applySkips (applyOpenSearchDefault cfgFull true
        envNoDapr.podmanAvailable) flagsSkipDapr) true flagsSkipDapr envNoDapr) ∧
    ((nameToComp (applySkips (applyOpenSearchDefault cfgFull true
          envNoDapr.podmanAvailable) flagsSkipDapr) true flagsSkipDapr envNoDapr
        CompName.podman).requiredFor.any fun d =>
      (mkComponents (applySkips (applyOpenSearchDefault cfgFull true
          envNoDapr.podmanAvailable) flagsSkipDapr) true flagsSkipDapr
          envNoDapr).any fun dc => dc.name == d && !dc.commandExists) = true ∧
    (Action.startComp (nameToComp (applySkips (applyOpenSearchDefault cfgFull
          true envNoDapr.podmanAvailable) flagsSkipDapr) true flagsSkipDapr
          envNoDapr CompName.podman).name ∉
        (startRun cfgFull true flagsSkipDapr cacheFull envNoDapr).actions ∧
      ((startRun cfgFull true flagsSkipDapr cacheFull envNoDapr).aborted = false →
        (nameToComp (applySkips (applyOpenSearchDefault cfgFull true
            envNoDapr.podmanAvailable) flagsSkipDapr) true flagsSkipDapr envNoDapr
            CompName.podman).isRequired = true →
        findState (startRun cfgFull true flagsSkipDapr cacheFull envNoDapr)
            (nameToComp (applySkips (applyOpenSearchDefault cfgFull true
              envNoDapr.podmanAvailable) flagsSkipDapr) true flagsSkipDapr
              envNoDapr CompName.podman).name =
          CompState.missingDependency ((nameToComp (applySkips
              (applyOpenSearchDefault cfgFull true envNoDapr.podmanAvailable)
              flagsSkipDapr) true flagsSkipDapr envNoDapr
              CompName.podman).requiredFor.filter fun d =>
            (mkComponents (applySkips (applyOpenSearchDefault cfgFull true
                envNoDapr.podmanAvailable) flagsSkipDapr) true flagsSkipDapr
                envNoDapr).any fun dc => dc.name == d && !dc.commandExists))) :=
  ⟨by decide, by decide,
   c7_dependency_gating_amended cfgFull true flagsSkipDapr cacheFull envNoDapr
     _ (by decide) (by decide)⟩

end DevHelper

namespace DevHelper

theorem c1step_podman (cfg : LocalEnvConfig) (configLoaded : Bool)
    (flags : StartFlags) (cache : ConfigCache) (cc : Bool) (env : Env)
    (hpa : env.podmanAvailable = true) (hka : env.kindAvailable = true)
    (hda : env.daprAvailable = true) (hta : env.temporalAvailable = true)
    (hpr : env.podmanRunning = true) :
    compStep cfg flags cache cc env (mkComponents cfg configLoaded flags env)
      (nameToComp cfg configLoaded flags env .podman) = (.verified, []) := by
  simp [compStep, nameToComp, mkComponents, podmanComp, kindComp, daprComp,
    daprDashboardComp, temporalComp, openSearchComp, openSearchDashboardComp,
    verifyAvailable, hpa, hka, hda, hta, hpr]

theorem c1step_kind (cfg : LocalEnvConfig) (configLoaded : Bool)
    (flags : StartFlags) (cache : ConfigCache) (cc : Bool) (env : Env)
    (hda : env.daprAvailable = true) (hta : env.temporalAvailable = true)
    (hkr : env.kindHasClusters = true) :
    compStep cfg flags cache cc env (mkComponents cfg configLoaded flags env)
      (nameToComp cfg configLoaded flags env .kind) = (.verified, []) := by
  simp [compStep, nameToComp, mkComponents, podmanComp, kindComp, daprComp,
    daprDashboardComp, temporalComp, openSearchComp, openSearchDashboardComp,
    verifyAvailable, hda, hta, hkr]

theorem c1step_dapr (cfg : LocalEnvConfig) (configLoaded : Bool)
    (flags : StartFlags) (cache : ConfigCache) (cc : Bool) (env : Env)
    (hdr : env.daprRunning = true) :
    (compStep cfg flags cache cc env (mkComponents cfg configLoaded flags env)
      (nameToComp cfg configLoaded flags env .dapr)).2 = [] ∧
    ((nameToComp cfg configLoaded flags env .dapr).isRequired = true →
      (compStep cfg flags cache cc env (mkComponents cfg configLoaded flags env)
        (nameToComp cfg configLoaded flags env .dapr)).1 = .alreadyRunning) := by
  by_cases hreq : (nameToComp cfg configLoaded flags env .dapr).isRequired = true
  · constructor <;>
      simp [compStep, nameToComp, daprComp, daprStep, hdr,
        hreq.symm ▸ hreq, nameToComp] <;>
      simp_all [nameToComp, daprComp]
  · have hreq' : (nameToComp cfg configLoaded flags env .dapr).isRequired = false := by
      rcases hr : (nameToComp cfg configLoaded flags env .dapr).isRequired
      · rfl
      · exact absurd hr hreq
    constructor
    · simp only [compStep]
      simp [nameToComp, daprComp] at hreq'
      simp [nameToComp, daprComp, hreq']
    · intro h
      exact absurd h hreq

end DevHelper

namespace DevHelper

theorem c1step_daprDashboard (cfg : LocalEnvConfig) (configLoaded : Bool)
    (flags : StartFlags) (cache : ConfigCache) (cc : Bool) (env : Env)
    (hforce : flags.forceRestart = false) (hcc : cc = false)
    (hpid : (env.dashboardPID != "") = true) :
    (compStep cfg flags cache cc env (mkComponents cfg configLoaded flags env)
      (nameToComp cfg configLoaded flags env .daprDashboard)).2 = [] ∧
    ((nameToComp cfg configLoaded flags env .daprDashboard).isRequired = true →
      (compStep cfg flags cache cc env (mkComponents cfg configLoaded flags env)
        (nameToComp cfg configLoaded flags env .daprDashboard)).1 = .alreadyRunning) := by
  by_cases hreq : (nameToComp cfg configLoaded flags env .daprDashboard).isRequired = true
  · simp only [nameToComp, daprDashboardComp] at hreq
    constructor <;>
      simp [compStep, nameToComp, daprDashboardComp, daprDashboardStep,
        hforce, hcc, hpid, hreq]
  · have hreq' : (nameToComp cfg configLoaded flags env
        .daprDashboard).isRequired = false := by
      rcases hr : (nameToComp cfg configLoaded flags env .daprDashboard).isRequired
      · rfl
      · exact absurd hr hreq
    simp only [nameToComp, daprDashboardComp] at hreq'
    constructor
    · simp [compStep, nameToComp, daprDashboardComp, hreq']
    · intro h
      exact absurd h hreq

theorem c1step_temporal (cfg : LocalEnvConfig) (configLoaded : Bool)
    (flags : StartFlags) (cache : ConfigCache) (cc : Bool) (env : Env)
    (hforce : flags.forceRestart = false) (hcc : cc = false)
    (htr : env.temporalRunning = true) :
    (compStep cfg flags cache cc env (mkComponents cfg configLoaded flags env)
      (nameToComp cfg configLoaded flags env .temporal)).2 = [] ∧
    ((nameToComp cfg configLoaded flags env .temporal).isRequired = true →
      (compStep cfg flags cache cc env (mkComponents cfg configLoaded flags env)
        (nameToComp cfg configLoaded flags env .temporal)).1 = .alreadyRunning) := by
  by_cases hreq : (nameToComp cfg configLoaded flags env .temporal).isRequired = true
  · simp only [nameToComp, temporalComp] at hreq
    constructor <;>
      simp [compStep, nameToComp, temporalComp, temporalStep, hforce, hcc, htr, hreq]
  · have hreq' : (nameToComp cfg configLoaded flags env .temporal).isRequired = false := by
      rcases hr : (nameToComp cfg configLoaded flags env .temporal).isRequired
      · rfl
      · exact absurd hr hreq
    simp only [nameToComp, temporalComp] at hreq'
    constructor
    · simp [compStep, nameToComp, temporalComp, hreq']
    · intro h
      exact absurd h hreq

theorem c1step_openSearch (cfg : LocalEnvConfig) (configLoaded : Bool)
    (flags : StartFlags) (cache : ConfigCache) (cc : Bool) (env : Env)
    (hpa : env.podmanAvailable = true)
    (hosr : env.osRemoveFails = false) (hoss : env.osStartFails = false)
    (hosc : env.osContainerUpAfterStart = true)
    (hosh : env.osHealthyAfterStart = true) :
    (nameToComp cfg configLoaded flags env .openSearch).isRequired = true →
    (compStep cfg flags cache cc env (mkComponents cfg configLoaded flags env)
      (nameToComp cfg configLoaded flags env .openSearch)).1 = .started := by
  intro hreq
  simp only [nameToComp, openSearchComp] at hreq
  cases hoe : env.osExistingContainer <;>
    simp [compStep, nameToComp, mkComponents, podmanComp, kindComp, daprComp,
      daprDashboardComp, temporalComp, openSearchComp, openSearchDashboardComp,
      openSearchStep, osLaunch, hpa, hosr, hoss, hosc, hosh, hoe, hreq]

theorem c1step_openSearchDashboard (cfg : LocalEnvConfig) (configLoaded : Bool)
    (flags : StartFlags) (cache : ConfigCache) (cc : Bool) (env : Env)
    (hnode : env.osNodeRunningAtDashStart = true)
    (hdrm : env.dashRemoveFails = false) (hdst : env.dashStartFails = false)
    (hdup : env.dashContainerUpAfterStart = true) :
    (nameToComp cfg configLoaded flags env .openSearchDashboard).isRequired = true →
    (compStep cfg flags cache cc env (mkComponents cfg configLoaded flags env)
      (nameToComp cfg configLoaded flags env .openSearchDashboard)).1 = .started := by
  intro hreq
  simp only [nameToComp, openSearchDashboardComp] at hreq
  cases hde : env.dashExistingContainer <;> cases hresp : env.dashHTTPResponds <;>
    simp [compStep, nameToComp, openSearchDashboardComp, openSearchDashboardStep,
      dashLaunch, hnode, hdrm, hdst, hdup, hde, hresp, hreq]

end DevHelper

namespace DevHelper

theorem c1_no_action (cfg0 : LocalEnvConfig) (configLoaded : Bool)
    (flags : StartFlags) (cache : ConfigCache) (env : Env)
    (hchanged : (hasConfigChanged (applyOpenSearchDefault cfg0 configLoaded
      env.podmanAvailable) cache).1 = false)
    (hforce : flags.forceRestart = false)
    (henv : envAllHealthy env) :
    ∀ (a : Action) (n : CompName),
      (a = Action.startComp n ∨ a = Action.stopComp n) →
      n ≠ CompName.openSearch → n ≠ CompName.openSearchDashboard →
      a ∉ (startRun cfg0 configLoaded flags cache env).actions := by
  obtain ⟨hpa, hka, hda, hta, hdh, hpr, hkr, hdr, hpid, htr,
    hosr, hoss, hosc, hosh, hnode, hdrm, hdst, hdup⟩ := henv
  intro a n hform hn1 hn2 hmem
  simp only [startRun] at hmem
  set CFG := applySkips (applyOpenSearchDefault cfg0 configLoaded
    env.podmanAvailable) flags with hCFG
  set CC := (hasConfigChanged (applyOpenSearchDefault cfg0 configLoaded
    env.podmanAvailable) cache).1 with hCC
  have hP := c1step_podman CFG configLoaded flags cache CC env hpa hka hda hta hpr
  have hK := c1step_kind CFG configLoaded flags cache CC env hda hta hkr
  have hD := c1step_dapr CFG configLoaded flags cache CC env hdr
  have hDD := c1step_daprDashboard CFG configLoaded flags cache CC env
    hforce hchanged hpid
  have hT := c1step_temporal CFG configLoaded flags cache CC env
    hforce hchanged htr
  split at hmem
  · rcases hfr : isFirstRunCache cache <;> simp only [hfr] at hmem
    · simp at hmem
    · simp only [if_true, List.mem_singleton] at hmem
      rcases hform with rfl | rfl <;> simp_all
  · simp only [List.mem_append] at hmem
    rcases hmem with (hmem | hmem) | hmem
    · rcases hfr : isFirstRunCache cache <;> simp only [hfr] at hmem
      · simp at hmem
      · simp only [if_true, List.mem_singleton] at hmem
        rcases hform with rfl | rfl <;> simp_all
    · rw [List.mem_flatten] at hmem
      obtain ⟨l, hl, hal⟩ := hmem
      simp only [List.mem_map] at hl
      obtain ⟨p, hp, rfl⟩ := hl
      obtain ⟨c', hc', rfl⟩ := hp
      simp only [mkComponents, List.mem_cons, List.not_mem_nil, or_false] at hc'
      rcases hc' with rfl | rfl | rfl | rfl | rfl | rfl | rfl
      · rw [hP] at hal
        simp at hal
      · rw [hK] at hal
        simp at hal
      · rw [hD.1] at hal
        simp at hal
      · rw [hDD.1] at hal
        simp at hal
      · rw [hT.1] at hal
        simp at hal
      · rcases compStep_shape CFG flags cache CC env
            (mkComponents CFG configLoaded flags env)
            (nameToComp CFG configLoaded flags env .openSearch) a hal with he | he <;>
          rcases hform with rfl | rfl <;>
          simp_all [nameToComp, openSearchComp]
      · rcases compStep_shape CFG flags cache CC env
            (mkComponents CFG configLoaded flags env)
            (nameToComp CFG configLoaded flags env .openSearchDashboard) a hal with he | he <;>
          rcases hform with rfl | rfl <;>
          simp_all [nameToComp, openSearchDashboardComp]
    · split at hmem
      · simp at hmem
      · simp only [List.mem_singleton] at hmem
        rcases hform with rfl | rfl <;> simp_all

end DevHelper

namespace DevHelper

theorem c1_all_running (cfg0 : LocalEnvConfig) (configLoaded : Bool)
    (flags : StartFlags) (cache : ConfigCache) (env : Env)
    (hchanged : (hasConfigChanged (applyOpenSearchDefault cfg0 configLoaded
      env.podmanAvailable) cache).1 = false)
    (hforce : flags.forceRestart = false)
    (henv : envAllHealthy env) :
    (∀ e ∈ (startRun cfg0 configLoaded flags cache env).entries,
      e.required = true → runningOf e.state = true) ∧
    (startRun cfg0 configLoaded flags cache env).exitFail = false := by
  obtain ⟨hpa, hka, hda, hta, hdh, hpr, hkr, hdr, hpid, htr,
    hosr, hoss, hosc, hosh, hnode, hdrm, hdst, hdup⟩ := henv
  simp only [startRun]
  set CFG := applySkips (applyOpenSearchDefault cfg0 configLoaded
    env.podmanAvailable) flags with hCFG
  set CC := (hasConfigChanged (applyOpenSearchDefault cfg0 configLoaded
    env.podmanAvailable) cache).1 with hCC
  have hP := c1step_podman CFG configLoaded flags cache CC env hpa hka hda hta hpr
  have hK := c1step_kind CFG configLoaded flags cache CC env hda hta hkr
  have hD := c1step_dapr CFG configLoaded flags cache CC env hdr
  have hDD := c1step_daprDashboard CFG configLoaded flags cache CC env
    hforce hchanged hpid
  have hT := c1step_temporal CFG configLoaded flags cache CC env
    hforce hchanged htr
  have hOS := c1step_openSearch CFG configLoaded flags cache CC env
    hpa hosr hoss hosc hosh
  have hOSD := c1step_openSearchDashboard CFG configLoaded flags cache CC env
    hnode hdrm hdst hdup
  have hmiss : ((mkComponents CFG configLoaded flags env).filter
      fun c => c.isRequired && !c.commandExists) = [] := by
    simp [mkComponents, nameToComp, podmanComp, kindComp, daprComp,
      daprDashboardComp, temporalComp, openSearchComp, openSearchDashboardComp,
      hpa, hka, hda, hta, hdh, List.filter]
  have hnotc : ¬((!(((mkComponents CFG configLoaded flags env).filter
      fun c => c.isRequired && !c.commandExists).map (·.name)).isEmpty) = true) := by
    rw [hmiss]
    simp
  rw [if_neg hnotc]
  have hstepAll : ∀ c ∈ mkComponents CFG configLoaded flags env,
      (c.isRequired && !(runningOf (compStep CFG flags cache CC env
        (mkComponents CFG configLoaded flags env) c).1)) = false := by
    intro c hcm
    simp only [mkComponents, List.mem_cons, List.not_mem_nil, or_false] at hcm
    rcases hcm with rfl | rfl | rfl | rfl | rfl | rfl | rfl
    · rw [hP]
      simp [runningOf]
    · rw [hK]
      simp [runningOf]
    · rcases hb : (nameToComp CFG configLoaded flags env .dapr).isRequired
      · simp
      · simp [hD.2 hb, runningOf]
    · rcases hb : (nameToComp CFG configLoaded flags env .daprDashboard).isRequired
      · simp
      · simp [hDD.2 hb, runningOf]
    · rcases hb : (nameToComp CFG configLoaded flags env .temporal).isRequired
      · simp
      · simp [hT.2 hb, runningOf]
    · rcases hb : (nameToComp CFG configLoaded flags env .openSearch).isRequired
      · simp
      · simp [hOS hb, runningOf]
    · rcases hb : (nameToComp CFG configLoaded flags env .openSearchDashboard).isRequired
      · simp
      · simp [hOSD hb, runningOf]
  constructor
  · intro e he hereq
    simp only [List.mem_map] at he
    obtain ⟨p, hp, rfl⟩ := he
    obtain ⟨c, hcm, rfl⟩ := hp
    dsimp only at hereq ⊢
    have := hstepAll c hcm
    rw [hereq] at this
    simp only [Bool.true_and, Bool.not_eq_false'] at this
    exact this
  · dsimp only
    rw [List.any_eq_false]
    intro p hp
    simp only [List.mem_map] at hp
    obtain ⟨c, hcm, rfl⟩ := hp
    dsimp only
    simp [hstepAll c hcm]

end DevHelper

namespace DevHelper

/-- Claim C1 counterexample: with no configuration drift, no force-restart
and every required service already healthy, the start orchestration still
issues stop commands (container removals) and start commands for the
OpenSearch and OpenSearchDashboard components, refuting "issues no stop
commands and no start commands for any component". -/
theorem c1_counterexample :
    (hasConfigChanged (applyOpenSearchDefault cfgFull true
      envFull.podmanAvailable) cacheFull).1 = false ∧
    flagsNone.forceRestart = false ∧
    envAllHealthy envFull ∧
    Action.stopComp CompName.openSearch ∈
      (startRun cfgFull true flagsNone cacheFull envFull).actions ∧
    Action.startComp CompName.openSearch ∈
      (startRun cfgFull true flagsNone cacheFull envFull).actions ∧
    Action.stopComp CompName.openSearchDashboard ∈
      (startRun cfgFull true flagsNone cacheFull envFull).actions := by
  refine ⟨by decide, rfl, ?_, by decide, by decide, by decide⟩
  unfold envAllHealthy
  decide

/-- Claim C1 (amended): if the loaded configuration has no fields differing
from the prior snapshot, the force-restart flag is not set and every
service is healthy, the start orchestration issues no stop or start
commands for any component other than OpenSearch and OpenSearchDashboard
(which are unconditionally recreated), every required component ends
running, and the run exits successfully. -/
theorem c1_idempotent_start_amended (cfg0 : LocalEnvConfig) (configLoaded : Bool)
    (flags : StartFlags) (cache : ConfigCache) (env : Env)
    (hchanged : (hasConfigChanged (applyOpenSearchDefault cfg0 configLoaded
      env.podmanAvailable) cache).1 = false)
    (hforce : flags.forceRestart = false)
    (henv : envAllHealthy env) :
    (∀ n, n ≠ CompName.openSearch → n ≠ CompName.openSearchDashboard →
      Action.startComp n ∉ (startRun cfg0 configLoaded flags cache env).actions ∧
      Action.stopComp n ∉ (startRun cfg0 configLoaded flags cache env).actions) ∧
    (∀ e ∈ (startRun cfg0 configLoaded flags cache env).entries,
      e.required = true → runningOf e.state = true) ∧
    (startRun cfg0 configLoaded flags cache env).exitFail = false :=
  ⟨fun n hn1 hn2 =>
    ⟨c1_no_action cfg0 configLoaded flags cache env hchanged hforce henv
        (Action.startComp n) n (Or.inl rfl) hn1 hn2,
      c1_no_action cfg0 configLoaded flags cache env hchanged hforce henv
        (Action.stopComp n) n (Or.inr rfl) hn1 hn2⟩,
    (c1_all_running cfg0 configLoaded flags cache env hchanged hforce henv).1,
    (c1_all_running cfg0 configLoaded flags cache env hchanged hforce henv).2⟩

theorem c1_witness :
    ((hasConfigChanged (applyOpenSearchDefault cfgFull true
        envFull.podmanAvailable) cacheFull).1 = false ∧
      flagsNone.forceRestart = false ∧ envAllHealthy envFull) ∧
    ((∀ n, n ≠ CompName.openSearch → n ≠ CompName.openSearchDashboard →
        Action.startComp n ∉ (startRun cfgFull true flagsNone cacheFull envFull).actions ∧
        Action.stopComp n ∉ (startRun cfgFull true flagsNone cacheFull envFull).actions) ∧
      (∀ e ∈ (startRun cfgFull true flagsNone cacheFull envFull).entries,
        e.required = true → runningOf e.state = true) ∧
      (startRun cfgFull true flagsNone cacheFull envFull).exitFail = false) :=
  ⟨⟨by decide, rfl, by unfold envAllHealthy; decide⟩,
    c1_idempotent_start_amended cfgFull true flagsNone cacheFull envFull
      (by decide) rfl (by unfold envAllHealthy; decide)⟩

end DevHelper
